import Mathlib

/-! Runtime entries of the DBC backend (`runtime/vm/runtime_entry_dbc.cc`)

A shallow embedding of the translation unit `runtime_entry_dbc.cc` of the Dart VM:

* `RuntimeEntry::GetEntryPoint`, the accessor that turns the native function pointer of a
  runtime entry into a machine word;
* `RuntimeEntry::CallInternal`, the call-sequence emitter, which this backend leaves
  unimplemented;
* the preprocessor guards (`TARGET_ARCH_DBC`, `DART_PRECOMPILED_RUNTIME`) that decide which of
  the two definitions the translation unit contributes to a build.

Calls are embedded by explicit state passing: a call starts in a state, and either returns a
value together with the state it leaves, or aborts the process.
-/

namespace dart

set_option linter.unusedVariables false

/-! ## Outcomes of a call -/

/-- Modelled from the spec: the kinds of fatal error of section 7 of the specification, here
because `platform/assert.h`, which declares the fatal-error machinery of the VM, is not part of
the sources at hand.  `unsupportedOperation` is the failure of an operation the build has no
implementation of; `malformedDescriptor` is the latent failure of a descriptor without a native
function. -/
inductive FatalError where
  | unsupportedOperation
  | malformedDescriptor
  deriving DecidableEq, Repr

/-- What a call does to the state `σ` it runs in: it returns normally with a value, or the process
is aborted with a fatal error.  Both record the state reached at that point. -/
inductive Outcome (σ α : Type) where
  | returned (state : σ) (value : α)
  | aborted (state : σ) (error : FatalError)
  deriving DecidableEq, Repr

namespace Outcome

variable {σ α : Type}

/-- State at the point where the call returned or the process was aborted. -/
def state : Outcome σ α → σ
  | returned s _ => s
  | aborted s _ => s

/-- Value handed back to the caller, when the call returned normally. -/
def value? : Outcome σ α → Option α
  | returned _ a => some a
  | aborted _ _ => none

/-- Fatal error the call raised, when it did not return. -/
def error? : Outcome σ α → Option FatalError
  | returned _ _ => none
  | aborted _ e => some e

/-- Whether the call came back to its caller. -/
def returnsNormally : Outcome σ α → Bool
  | returned _ _ => true
  | aborted _ _ => false

end Outcome

/-- A piece of code running on a state `σ` and computing an `α`. -/
def Exec (σ α : Type) : Type := σ → Outcome σ α

namespace Exec

variable {σ α β : Type}

/-- The statement `return a;`. -/
def ret (a : α) : Exec σ α := fun s => Outcome.returned s a

/-- Sequencing `m; f`: a fatal error in `m` ends the process, and `f` never runs. -/
def andThen (m : Exec σ α) (f : α → Exec σ β) : Exec σ β := fun s =>
  match m s with
  | Outcome.returned s1 a => f a s1
  | Outcome.aborted s1 e => Outcome.aborted s1 e

/-- The code `m` called `n + 1` times in a row, each call starting in the state the previous one
left; the outcome is that of the last call. -/
def repeated (m : Exec σ α) : Nat → Exec σ α
  | 0 => m
  | n + 1 => andThen m (fun _ => repeated m n)

end Exec

/-! ## Machine words and runtime entries -/

/-- Modelled from the spec: the type `uword` of `vm/globals.h`, which is not part of the sources
at hand: an unsigned machine word, the raw address of section 3 of the specification.  The width
of a word is the parameter `bits`. -/
abbrev uword (bits : Nat) : Type := Fin (2 ^ bits)

/-- Modelled from the spec: the type `RuntimeFunction` of `vm/runtime_entry.h`, which is not part
of the sources at hand: a pointer to native code, which section 3 of the specification takes as
the address it holds, one machine word wide. -/
structure RuntimeFunction (bits : Nat) where
  address : uword bits
  deriving DecidableEq, Repr

/-- The null pointer. -/
def RuntimeFunction.null (bits : Nat) : RuntimeFunction bits :=
  ⟨⟨0, Nat.two_pow_pos bits⟩⟩

/-- The conversion `reinterpret_cast<uword>(p)` of a pointer: the address as an integer of the same
width. -/
def reinterpret_cast_uword {bits : Nat} (p : RuntimeFunction bits) : uword bits :=
  p.address

/-- Modelled from the spec: the class `RuntimeEntry`, declared in `vm/runtime_entry.h`, which is
not part of the sources at hand.  Section 3 of the specification gives a descriptor a symbolic
name, a native function pointer, an expected argument count, and a flag telling whether a call
may trigger garbage collection. -/
structure RuntimeEntry (bits : Nat) where
  name_ : String
  function_ : RuntimeFunction bits
  argument_count_ : Nat
  can_trigger_gc_ : Bool
  deriving DecidableEq, Repr

namespace RuntimeEntry

variable {bits : Nat}

/-- Modelled from the spec: the accessor `function()` of `vm/runtime_entry.h`, through which
`GetEntryPoint` reads the native function pointer of the receiver. -/
def function : Exec (RuntimeEntry bits) (RuntimeFunction bits) :=
  fun this => Outcome.returned this this.function_

/-- The method
`uword RuntimeEntry::GetEntryPoint() const { return reinterpret_cast<uword>(function()); }`,
run on the receiver `this`. -/
def GetEntryPoint : Exec (RuntimeEntry bits) (uword bits) :=
  Exec.andThen function (fun f => Exec.ret (reinterpret_cast_uword f))

end RuntimeEntry

/-! ## The call-sequence emitter -/

/-- Modelled from the spec: the class `Assembler` of `vm/compiler/assembler/assembler.h`, which is
not part of the sources at hand.  Section 6 of the specification describes it as an append-only
instruction stream; the type `ι` of instructions is a parameter. -/
structure Assembler (ι : Type) where
  instructions : List ι
  deriving DecidableEq, Repr

/-- Modelled from the spec: `UNIMPLEMENTED()` of `platform/assert.h`, which is not part of the
sources at hand.  Sections 4.2 and 7 of the specification make it the unsupported-operation
failure: the process is aborted at once, in the state it has reached. -/
def UNIMPLEMENTED {σ : Type} : Exec σ Unit :=
  fun s => Outcome.aborted s FatalError.unsupportedOperation

/-- The static method
`void RuntimeEntry::CallInternal(const RuntimeEntry* runtime_entry, Assembler* assembler,
intptr_t argument_count) { UNIMPLEMENTED(); }`.
A pointer argument is the object it points to, `none` when the pointer is null.  The object behind
`assembler` is the state the call runs on; the body is the statement `UNIMPLEMENTED();` followed
by the return at the end of a `void` function. -/
def RuntimeEntry.CallInternal {bits : Nat} {ι : Type}
    (runtime_entry : Option (RuntimeEntry bits)) (assembler : Option (Assembler ι))
    (argument_count : Int) : Outcome (Option (Assembler ι)) Unit :=
  Exec.andThen UNIMPLEMENTED (fun _ => Exec.ret ()) assembler

/-! ## Preprocessor guards of the translation unit -/

/-- The two names the guards of `runtime_entry_dbc.cc` test with `defined`. -/
inductive BuildFlag where
  | TARGET_ARCH_DBC
  | DART_PRECOMPILED_RUNTIME
  deriving DecidableEq, Repr

/-- A build configuration: for each flag, whether it is defined where the guards are evaluated. -/
structure BuildConfig where
  TARGET_ARCH_DBC : Bool
  DART_PRECOMPILED_RUNTIME : Bool
  deriving DecidableEq, Repr

/-- The test `defined(flag)` in a configuration. -/
def BuildConfig.defined (cfg : BuildConfig) : BuildFlag → Bool
  | BuildFlag.TARGET_ARCH_DBC => cfg.TARGET_ARCH_DBC
  | BuildFlag.DART_PRECOMPILED_RUNTIME => cfg.DART_PRECOMPILED_RUNTIME

/-- The function definitions written in `runtime_entry_dbc.cc`. -/
inductive Member where
  | GetEntryPoint
  | CallInternal
  deriving DecidableEq, Repr

/-- The kinds of line of `runtime_entry_dbc.cc`, comments and blank lines left out. -/
inductive SourceLine where
  | hashInclude (header : String)
  | hashIfDefined (flag : BuildFlag)
  | hashIfNotDefined (flag : BuildFlag)
  | hashEndif
  | namespaceBegin (name : String)
  | namespaceEnd
  | functionDefinition (member : Member)
  deriving DecidableEq, Repr

/-- The text of `runtime_entry_dbc.cc`, line by line. -/
def runtime_entry_dbc_cc : List SourceLine :=
  [ SourceLine.hashInclude "vm/globals.h",
    SourceLine.hashIfDefined BuildFlag.TARGET_ARCH_DBC,
    SourceLine.hashInclude "vm/runtime_entry.h",
    SourceLine.hashInclude "vm/compiler/assembler/assembler.h",
    SourceLine.hashInclude "vm/simulator.h",
    SourceLine.hashInclude "vm/stub_code.h",
    SourceLine.namespaceBegin "dart",
    SourceLine.functionDefinition Member.GetEntryPoint,
    SourceLine.hashIfNotDefined BuildFlag.DART_PRECOMPILED_RUNTIME,
    SourceLine.functionDefinition Member.CallInternal,
    SourceLine.hashEndif,
    SourceLine.namespaceEnd,
    SourceLine.hashEndif ]

/-- Conditional inclusion as the C preprocessor does it for `#if defined`, `#if !defined` and
`#endif`: `open_ifs` holds the value of the condition of every `#if` still open, innermost first,
and a line is kept when all of them hold.  An `#endif` without an `#if`, or an `#if` never closed,
is an error. -/
def preprocess (cfg : BuildConfig) : List SourceLine → List Bool → Option (List SourceLine)
  | [], [] => some []
  | [], _ :: _ => none
  | SourceLine.hashIfDefined flag :: rest, open_ifs =>
      preprocess cfg rest (cfg.defined flag :: open_ifs)
  | SourceLine.hashIfNotDefined flag :: rest, open_ifs =>
      preprocess cfg rest ((!cfg.defined flag) :: open_ifs)
  | SourceLine.hashEndif :: _, [] => none
  | SourceLine.hashEndif :: rest, _ :: open_ifs => preprocess cfg rest open_ifs
  | SourceLine.hashInclude header :: rest, open_ifs =>
      if open_ifs.all id then
        (preprocess cfg rest open_ifs).map (fun kept => SourceLine.hashInclude header :: kept)
      else preprocess cfg rest open_ifs
  | SourceLine.namespaceBegin name :: rest, open_ifs =>
      if open_ifs.all id then
        (preprocess cfg rest open_ifs).map (fun kept => SourceLine.namespaceBegin name :: kept)
      else preprocess cfg rest open_ifs
  | SourceLine.namespaceEnd :: rest, open_ifs =>
      if open_ifs.all id then
        (preprocess cfg rest open_ifs).map (fun kept => SourceLine.namespaceEnd :: kept)
      else preprocess cfg rest open_ifs
  | SourceLine.functionDefinition member :: rest, open_ifs =>
      if open_ifs.all id then
        (preprocess cfg rest open_ifs).map
          (fun kept => SourceLine.functionDefinition member :: kept)
      else preprocess cfg rest open_ifs

/-- The function definitions among the lines that are kept. -/
def keptDefinitions (kept : List SourceLine) : List Member :=
  kept.filterMap fun line =>
    match line with
    | SourceLine.functionDefinition member => some member
    | _ => none

/-- The function definitions `runtime_entry_dbc.cc` contributes to a build with configuration
`cfg`. -/
def definedMembers (cfg : BuildConfig) : Option (List Member) :=
  (preprocess cfg runtime_entry_dbc_cc []).map keptDefinitions

/-! ## Basic facts about the embedding -/

/-- Unfolding of `GetEntryPoint`: the call returns the address held by the native function
pointer of the receiver, in the state it started in. -/
theorem RuntimeEntry.GetEntryPoint_eq {bits : Nat} (d : RuntimeEntry bits) :
    RuntimeEntry.GetEntryPoint d = Outcome.returned d d.function_.address :=
  rfl

/-- Unfolding of `CallInternal`: the process is aborted in the state the call started in. -/
theorem RuntimeEntry.CallInternal_eq {bits : Nat} {ι : Type}
    (runtime_entry : Option (RuntimeEntry bits)) (assembler : Option (Assembler ι))
    (argument_count : Int) :
    RuntimeEntry.CallInternal runtime_entry assembler argument_count
      = Outcome.aborted assembler FatalError.unsupportedOperation :=
  rfl

/-- Code that returns its value in the state it started in can be called any number of times:
every call returns that same value and leaves that same state. -/
theorem Exec.repeated_of_returned {σ α : Type} (m : Exec σ α) (s : σ) (a : α)
    (h : m s = Outcome.returned s a) (n : Nat) :
    Exec.repeated m n s = Outcome.returned s a := by
  induction n with
  | zero => exact h
  | succ k ih =>
      show Exec.andThen m (fun _ => Exec.repeated m k) s = Outcome.returned s a
      unfold Exec.andThen
      rw [h]
      exact ih

/-- Two pointers are equal exactly when they hold the same address. -/
theorem RuntimeFunction.address_inj {bits : Nat} (p q : RuntimeFunction bits) :
    p.address = q.address ↔ p = q := by
  cases p
  cases q
  simp

/-! ## The entry-point accessor -/

/-- C1: for every descriptor `d`, `GetEntryPoint()` returns exactly the machine word that
`reinterpret_cast<uword>` obtains from the native function pointer of `d`, which is the address the
pointer holds, with nothing added; for the descriptor named `AllocateObject` with function pointer
`0xDEADBEEF` and two arguments it returns `0xDEADBEEF`, on 32-bit and on 64-bit words and whatever
the flag. -/
theorem GetEntryPoint_returns_function_pointer :
    (∀ (bits : Nat) (d : RuntimeEntry bits),
        (RuntimeEntry.GetEntryPoint d).value? = some (reinterpret_cast_uword d.function_)
        ∧ (reinterpret_cast_uword d.function_).val = d.function_.address.val)
    ∧ (∀ flag : Bool,
        ((RuntimeEntry.GetEntryPoint
            (⟨"AllocateObject", ⟨⟨0xDEADBEEF, by norm_num⟩⟩, 2, flag⟩ : RuntimeEntry 32)).value?).map
          Fin.val = some 0xDEADBEEF)
    ∧ (∀ flag : Bool,
        ((RuntimeEntry.GetEntryPoint
            (⟨"AllocateObject", ⟨⟨0xDEADBEEF, by norm_num⟩⟩, 2, flag⟩ : RuntimeEntry 64)).value?).map
          Fin.val = some 0xDEADBEEF) :=
  ⟨fun _ _ => ⟨rfl, rfl⟩, fun _ => rfl, fun _ => rfl⟩

/-- C3: for every descriptor whose native function pointer is not null, `GetEntryPoint()` raises
no error, returns normally, and the address it returns is not zero. -/
theorem GetEntryPoint_nonnull_of_wellformed (bits : Nat) (d : RuntimeEntry bits)
    (h : d.function_ ≠ RuntimeFunction.null bits) :
    (RuntimeEntry.GetEntryPoint d).error? = none
    ∧ (RuntimeEntry.GetEntryPoint d).returnsNormally = true
    ∧ ∃ entry : uword bits,
        (RuntimeEntry.GetEntryPoint d).value? = some entry ∧ entry.val ≠ 0 := by
  refine ⟨rfl, rfl, d.function_.address, rfl, ?_⟩
  intro h0
  apply h
  apply (RuntimeFunction.address_inj _ _).mp
  exact Fin.ext h0

/-- C3, on the descriptor of `AllocateObject` at `0xDEADBEEF` with 32-bit words. -/
theorem GetEntryPoint_nonnull_of_wellformed_witness :
    (⟨"AllocateObject", ⟨⟨0xDEADBEEF, by norm_num⟩⟩, 2, true⟩ : RuntimeEntry 32).function_
        ≠ RuntimeFunction.null 32
    ∧ ((RuntimeEntry.GetEntryPoint
          (⟨"AllocateObject", ⟨⟨0xDEADBEEF, by norm_num⟩⟩, 2, true⟩ : RuntimeEntry 32)).error? = none
      ∧ (RuntimeEntry.GetEntryPoint
          (⟨"AllocateObject", ⟨⟨0xDEADBEEF, by norm_num⟩⟩, 2, true⟩ : RuntimeEntry 32)).returnsNormally
          = true
      ∧ ∃ entry : uword 32,
          (RuntimeEntry.GetEntryPoint
            (⟨"AllocateObject", ⟨⟨0xDEADBEEF, by norm_num⟩⟩, 2, true⟩ : RuntimeEntry 32)).value?
            = some entry ∧ entry.val ≠ 0) :=
  ⟨by decide, GetEntryPoint_nonnull_of_wellformed 32 _ (by decide)⟩

/-- C4: `GetEntryPoint()` is pure and idempotent: for every descriptor `d` the call leaves `d`,
and so its name, function pointer, argument count and flag, as they were, and any number of calls
in a row on `d` end like the first one, with the same address returned and `d` unchanged. -/
theorem GetEntryPoint_pure_idempotent (bits : Nat) (d : RuntimeEntry bits) (n : Nat) :
    (RuntimeEntry.GetEntryPoint d).state = d
    ∧ (RuntimeEntry.GetEntryPoint d).state.name_ = d.name_
    ∧ (RuntimeEntry.GetEntryPoint d).state.function_ = d.function_
    ∧ (RuntimeEntry.GetEntryPoint d).state.argument_count_ = d.argument_count_
    ∧ (RuntimeEntry.GetEntryPoint d).state.can_trigger_gc_ = d.can_trigger_gc_
    ∧ Exec.repeated RuntimeEntry.GetEntryPoint n d = RuntimeEntry.GetEntryPoint d
    ∧ (Exec.repeated RuntimeEntry.GetEntryPoint n d).value?
        = (RuntimeEntry.GetEntryPoint d).value?
    ∧ (Exec.repeated RuntimeEntry.GetEntryPoint n d).state = d := by
  have hrep := Exec.repeated_of_returned RuntimeEntry.GetEntryPoint d d.function_.address
    (RuntimeEntry.GetEntryPoint_eq d) n
  refine ⟨rfl, rfl, rfl, rfl, rfl, ?_, ?_, ?_⟩
  · rw [hrep, RuntimeEntry.GetEntryPoint_eq]
  · rw [hrep, RuntimeEntry.GetEntryPoint_eq]
  · rw [hrep]
    rfl

/-- C7: the address `GetEntryPoint()` returns depends on the native function pointer alone and
determines it: two descriptors return the same address exactly when their function pointers are
equal, whatever their names, argument counts and flags. -/
theorem GetEntryPoint_injective_in_function (bits : Nat) (d1 d2 : RuntimeEntry bits) :
    (RuntimeEntry.GetEntryPoint d1).value? = (RuntimeEntry.GetEntryPoint d2).value?
      ↔ d1.function_ = d2.function_ := by
  rw [RuntimeEntry.GetEntryPoint_eq, RuntimeEntry.GetEntryPoint_eq]
  simp only [Outcome.value?, Option.some.injEq]
  exact RuntimeFunction.address_inj _ _

/-- C8: `GetEntryPoint()` does not validate the descriptor: when the native function pointer is
null the call still returns normally, raises no error, leaves the descriptor as it was, and the
address it returns is 0. -/
theorem GetEntryPoint_null_returns_zero (bits : Nat) (d : RuntimeEntry bits)
    (h : d.function_ = RuntimeFunction.null bits) :
    (RuntimeEntry.GetEntryPoint d).returnsNormally = true
    ∧ (RuntimeEntry.GetEntryPoint d).error? = none
    ∧ (RuntimeEntry.GetEntryPoint d).state = d
    ∧ ((RuntimeEntry.GetEntryPoint d).value?).map Fin.val = some 0 := by
  refine ⟨rfl, rfl, rfl, ?_⟩
  rw [RuntimeEntry.GetEntryPoint_eq, h]
  rfl

/-- C8, on a descriptor with a null function pointer and 64-bit words. -/
theorem GetEntryPoint_null_returns_zero_witness :
    (⟨"AllocateObject", RuntimeFunction.null 64, 2, false⟩ : RuntimeEntry 64).function_
        = RuntimeFunction.null 64
    ∧ ((RuntimeEntry.GetEntryPoint
          (⟨"AllocateObject", RuntimeFunction.null 64, 2, false⟩ : RuntimeEntry 64)).returnsNormally
          = true
      ∧ (RuntimeEntry.GetEntryPoint
          (⟨"AllocateObject", RuntimeFunction.null 64, 2, false⟩ : RuntimeEntry 64)).error? = none
      ∧ (RuntimeEntry.GetEntryPoint
          (⟨"AllocateObject", RuntimeFunction.null 64, 2, false⟩ : RuntimeEntry 64)).state
          = ⟨"AllocateObject", RuntimeFunction.null 64, 2, false⟩
      ∧ ((RuntimeEntry.GetEntryPoint
          (⟨"AllocateObject", RuntimeFunction.null 64, 2, false⟩ : RuntimeEntry 64)).value?).map
          Fin.val = some 0) :=
  ⟨rfl, GetEntryPoint_null_returns_zero 64 _ rfl⟩

/-! ## The call-sequence emitter -/

/-- C2: in the configuration with `TARGET_ARCH_DBC` defined and `DART_PRECOMPILED_RUNTIME` not
defined, where the translation unit defines `CallInternal`, the call
`CallInternal(runtime_entry, assembler, argument_count)` raises the unsupported-operation failure
for every runtime entry, assembler and argument count: it never returns normally, and any two
choices of arguments end in the same failure. -/
theorem CallInternal_always_unimplemented (bits : Nat) (ι : Type)
    (runtime_entry other_entry : Option (RuntimeEntry bits))
    (assembler other_assembler : Option (Assembler ι))
    (argument_count other_count : Int) :
    definedMembers ⟨true, false⟩ = some [Member.GetEntryPoint, Member.CallInternal]
    ∧ (RuntimeEntry.CallInternal runtime_entry assembler argument_count).error?
        = some FatalError.unsupportedOperation
    ∧ (RuntimeEntry.CallInternal runtime_entry assembler argument_count).returnsNormally = false
    ∧ (RuntimeEntry.CallInternal runtime_entry assembler argument_count).value? = none
    ∧ (RuntimeEntry.CallInternal runtime_entry assembler argument_count).error?
        = (RuntimeEntry.CallInternal other_entry other_assembler other_count).error? :=
  ⟨rfl, rfl, rfl, rfl, rfl⟩

/-- C5: `CallInternal` is neither a silent no-op nor a partial emission: for every assembler the
process is aborted with the unsupported-operation failure in the very state the call was given, so
the instruction stream at the point of failure is the stream passed in, and whatever code follows
the call never runs: the failure is the outcome of the whole sequence. -/
theorem CallInternal_emits_nothing (bits : Nat) (ι β : Type)
    (runtime_entry : Option (RuntimeEntry bits)) (assembler : Option (Assembler ι))
    (argument_count : Int) (next : Unit → Exec (Option (Assembler ι)) β) :
    RuntimeEntry.CallInternal runtime_entry assembler argument_count
        = Outcome.aborted assembler FatalError.unsupportedOperation
    ∧ ((RuntimeEntry.CallInternal runtime_entry assembler argument_count).state).map
          Assembler.instructions = assembler.map Assembler.instructions
    ∧ RuntimeEntry.CallInternal runtime_entry assembler argument_count
        ≠ Outcome.returned assembler ()
    ∧ Exec.andThen (fun a => RuntimeEntry.CallInternal runtime_entry a argument_count) next
          assembler = Outcome.aborted assembler FatalError.unsupportedOperation := by
  refine ⟨rfl, rfl, ?_, rfl⟩
  rw [RuntimeEntry.CallInternal_eq]
  exact fun h => Outcome.noConfusion h

/-! ## The preprocessor guards -/

/-- C6: which definitions the translation unit contributes is a function of the two build flags
alone: preprocessing succeeds in every configuration, the unit defines nothing exactly when
`TARGET_ARCH_DBC` is not defined, it defines `GetEntryPoint` exactly when `TARGET_ARCH_DBC` is
defined, and it defines the `CallInternal` stub exactly when `TARGET_ARCH_DBC` is defined and
`DART_PRECOMPILED_RUNTIME` is not. -/
theorem definitions_selected_by_build_flags (cfg : BuildConfig) :
    ∃ members : List Member,
      definedMembers cfg = some members
      ∧ (members = [] ↔ cfg.TARGET_ARCH_DBC = false)
      ∧ (Member.GetEntryPoint ∈ members ↔ cfg.TARGET_ARCH_DBC = true)
      ∧ (Member.CallInternal ∈ members
          ↔ (cfg.TARGET_ARCH_DBC = true ∧ cfg.DART_PRECOMPILED_RUNTIME = false)) := by
  rcases cfg with ⟨_ | _, _ | _⟩
  · exact ⟨[], rfl, by decide⟩
  · exact ⟨[], rfl, by decide⟩
  · exact ⟨[Member.GetEntryPoint, Member.CallInternal], rfl, by decide⟩
  · exact ⟨[Member.GetEntryPoint], rfl, by decide⟩

end dart
